import Mathlib

/-!
Verification development for the kafka request/response layer of the
`rust-common` repository.  The Rust sources under `src/kafka` are shallowly
embedded: pure data and control flow become Lean functions, the broker and
the async runtime become explicit parameters (a send either succeeds or
fails with a given error text; the `select!` race has an explicit outcome),
and `serde_json`'s text layer is modelled as the identity on JSON values,
so (de)serialization is embedded at the level of a JSON syntax tree.
-/

namespace RustCommon

/-- Model of `serde_json::Value`.  Numbers are modelled as integers: every
claim treats the payload opaquely, so the number representation never
matters. -/
inductive Json where
  | null : Json
  | bool : Bool → Json
  | num : Int → Json
  | str : String → Json
  | arr : List Json → Json
  | obj : List (String × Json) → Json

/-- The `MessageType` from `src/kafka/core/extensions.rs` (identical to the copy
in `src/kafka/extensions.rs`): serde-renamed to the uppercase tokens. -/
inductive MessageType where
  | request : MessageType
  | response : MessageType
  | message : MessageType
deriving DecidableEq

/-- Serde serialization of `MessageType` (`#[serde(rename = "...")]`). -/
def MessageType.toJson : MessageType → Json
  | .request => .str "REQUEST"
  | .response => .str "RESPONSE"
  | .message => .str "MESSAGE"

/-- Serde deserialization of `MessageType`: only the three renamed string
tokens are accepted. -/
def decodeMessageType : Json → Option MessageType
  | .str "REQUEST" => some .request
  | .str "RESPONSE" => some .response
  | .str "MESSAGE" => some .message
  | _ => none

/-- The `ResponseDestination` from `src/kafka/core/extensions.rs`. -/
structure ResponseDestination where
  topic : String
  uri : String
deriving DecidableEq

/-- The `ResponseDestination::should_response`: both fields non-empty. -/
def ResponseDestination.should_response (d : ResponseDestination) : Bool :=
  !d.topic.isEmpty && !d.uri.isEmpty

/-- Serde serialization of `ResponseDestination` (field declaration order). -/
def ResponseDestination.toJson (d : ResponseDestination) : Json :=
  .obj [("topic", .str d.topic), ("uri", .str d.uri)]

/-- The `ParsedMessage` from `src/kafka/core/extensions.rs`, with
`#[serde(rename_all = "camelCase")]`.  The payload type parameter is fixed
to its default `serde_json::Value`. -/
structure ParsedMessage where
  message_type : MessageType
  source_id : Option String
  transaction_id : String
  message_id : String
  uri : String
  response_destination : Option ResponseDestination
  data : Json

/-- The `ParsedMessage::should_response`: `map_or(false, ...)` over the optional
destination. -/
def ParsedMessage.should_response (m : ParsedMessage) : Bool :=
  match m.response_destination with
  | some dest => dest.should_response
  | none => false

/-- Serde serialization of `Option<String>`: `None` becomes `null`. -/
def optStringToJson : Option String → Json
  | none => .null
  | some s => .str s

/-- Serde serialization of `Option<ResponseDestination>`. -/
def optDestToJson : Option ResponseDestination → Json
  | none => .null
  | some d => d.toJson

/-- Serde serialization of `ParsedMessage`: a JSON object with the
camelCase field names, in declaration order. -/
def ParsedMessage.toJson (m : ParsedMessage) : Json :=
  .obj [("messageType", m.message_type.toJson),
        ("sourceId", optStringToJson m.source_id),
        ("transactionId", .str m.transaction_id),
        ("messageId", .str m.message_id),
        ("uri", .str m.uri),
        ("responseDestination", optDestToJson m.response_destination),
        ("data", m.data)]

/-- String extraction used when serde deserializes a `String` field. -/
def Json.asString : Json → Option String
  | .str s => some s
  | _ => none

/-- Serde deserialization of an `Option<String>` struct field: an absent
field and an explicit `null` both give `None`; a non-string, non-null value
is an error. -/
def decodeOptString : Option Json → Option (Option String)
  | none => some none
  | some .null => some none
  | some (.str s) => some (some s)
  | some _ => none

/-- Number of occurrences of a key in a JSON object, used to model serde's
`duplicate field` error for known fields. -/
def jsonKeyCount (kvs : List (String × Json)) (k : String) : Nat :=
  (kvs.filter (fun p => p.1 == k)).length

/-- Serde deserialization of `ResponseDestination`: both fields required,
unknown fields ignored, duplicate known fields rejected. -/
def decodeResponseDestination : Json → Option ResponseDestination
  | .obj kvs =>
    if jsonKeyCount kvs "topic" ≤ 1 ∧ jsonKeyCount kvs "uri" ≤ 1 then
      match (kvs.lookup "topic").bind Json.asString,
            (kvs.lookup "uri").bind Json.asString with
      | some t, some u => some ⟨t, u⟩
      | _, _ => none
    else none
  | _ => none

/-- Serde deserialization of an `Option<ResponseDestination>` field. -/
def decodeOptDest : Option Json → Option (Option ResponseDestination)
  | none => some none
  | some .null => some none
  | some j => (decodeResponseDestination j).map some

/-- The seven field names serde knows for `ParsedMessage`. -/
def parsedMessageKeys : List String :=
  ["messageType", "sourceId", "transactionId", "messageId", "uri",
   "responseDestination", "data"]

/-- The `ParsedMessage::parse_from_string` from `src/kafka/core/extensions.rs`:
`serde_json::from_str::<ParsedMessage>` returning `Some` on success and
`None` (after logging) on any decode error.  The JSON text layer is
modelled as the identity, so the input is a `Json` value.  Per serde's
derived deserializer: the five non-`Option` fields are required, the two
`Option` fields default to `None` when absent, unknown fields are ignored,
and a duplicate known field is an error. -/
def ParsedMessage.parse_from_string : Json → Option ParsedMessage
  | .obj kvs =>
    if ∀ k ∈ parsedMessageKeys, jsonKeyCount kvs k ≤ 1 then
      match (kvs.lookup "messageType").bind decodeMessageType,
            decodeOptString (kvs.lookup "sourceId"),
            (kvs.lookup "transactionId").bind Json.asString,
            (kvs.lookup "messageId").bind Json.asString,
            (kvs.lookup "uri").bind Json.asString,
            decodeOptDest (kvs.lookup "responseDestination"),
            kvs.lookup "data" with
      | some mt, some sid, some tid, some mid, some uri, some rd, some d =>
        some { message_type := mt, source_id := sid, transaction_id := tid,
               message_id := mid, uri := uri, response_destination := rd,
               data := d }
      | _, _, _, _, _, _, _ => none
    else none
  | _ => none

/-- The `SendMessage` from `src/kafka/core/extensions.rs`: a topic together
with the envelope to publish there. -/
structure SendMessage where
  topic : String
  message : ParsedMessage

/-- The `Status` from `src/kafka/core/extensions.rs`, type parameter fixed to
`serde_json::Value`. -/
structure Status where
  code : String
  message : String
  data : Option Json

/-- The `Response` (the RESPONSE payload shape) from
`src/kafka/core/extensions.rs`, type parameters fixed to
`serde_json::Value`. -/
structure Response where
  status : Option Status
  data : Option Json

/-- Serde serialization of an optional JSON payload field. -/
def optJsonToJson : Option Json → Json
  | none => .null
  | some j => j

/-- Serde serialization of `Status` (field declaration order). -/
def Status.toJson (s : Status) : Json :=
  .obj [("code", .str s.code), ("message", .str s.message),
        ("data", optJsonToJson s.data)]

/-- Serde serialization of `Response` (field declaration order). -/
def Response.toJson (r : Response) : Json :=
  .obj [("status", match r.status with
                   | none => Json.null
                   | some s => s.toJson),
        ("data", optJsonToJson r.data)]

/-- The `Error` from `src/kafka/error.rs`, the error type used by
`StreamHandler`. -/
inductive Error where
  | internalServerError : String → Error
  | uriNotFound : String → Error

/-- The `thiserror` `Display` implementation of `Error`. -/
def Error.display : Error → String
  | .internalServerError s => "Internal Server Error: " ++ s
  | .uriNotFound s => "Uri not found: " ++ s

/-- The `Error::to_response` from `src/kafka/error.rs`: wrap the error code and
display text in a `Status`, with both `data` fields `None`. -/
def Error.to_response : Error → Response
  | .internalServerError s =>
    { status := some { code := "INTERNAL_SERVER_ERROR",
                       message := (Error.internalServerError s).display,
                       data := none },
      data := none }
  | .uriNotFound s =>
    { status := some { code := "URI_NOT_FOUND",
                       message := (Error.uriNotFound s).display,
                       data := none },
      data := none }

/-- The `KafkaError` from `src/kafka/core/error.rs`, the error type used by
`RequestSender`. -/
inductive KafkaError where
  | internalServerError : String → KafkaError
  | uriNotFound : String → KafkaError
  | serializationError : String → KafkaError
  | connectionError : String → KafkaError
  | timeoutError : String → KafkaError
  | configurationError : String → KafkaError
deriving DecidableEq

/-- The `HandlerResult` from `src/kafka/stream_handler.rs`: a handler either
produces a response payload or merely acknowledges. -/
inductive HandlerResult where
  | response : Json → HandlerResult
  | acknowledge : HandlerResult

/-- The `create_message` from `src/kafka/extensions.rs` (the variant used by
`StreamHandler`, whose `source_id` parameter is `Option<String>`): builds
the `(topic, envelope)` pair, defaulting the message type to `MESSAGE`. -/
def create_message (source_id : Option String) (message_id : String)
    (transaction_id : String) (topic : String) (uri : String) (data : Json)
    (message_type : Option MessageType)
    (response_destination : Option ResponseDestination) : SendMessage :=
  { topic := topic,
    message := { message_type := message_type.getD .message,
                 source_id := source_id,
                 message_id := message_id,
                 transaction_id := transaction_id,
                 uri := uri,
                 response_destination := response_destination,
                 data := data } }

/-- The `create_message` from `src/kafka/utils.rs` (the variant used by
`RequestSender`, whose `source_id` parameter is a plain `String` — the
call site passes the configured `cluster_id`); it fills the envelope's
optional `source_id` field with that string. -/
def utils_create_message (source_id : String) (message_id : String)
    (transaction_id : String) (topic : String) (uri : String) (data : Json)
    (message_type : Option MessageType)
    (response_destination : Option ResponseDestination) : SendMessage :=
  { topic := topic,
    message := { message_type := message_type.getD .message,
                 source_id := some source_id,
                 message_id := message_id,
                 transaction_id := transaction_id,
                 uri := uri,
                 response_destination := response_destination,
                 data := data } }

/-- A registered URI handler, as stored in `StreamHandler.routes`:
`ParsedMessage → Result<HandlerResult, Error>` (the async wrapper is
elided; the embedding records only the returned value). -/
def Handler : Type := ParsedMessage → Except Error HandlerResult

/-- The route registry `HashMap<String, MessageHandler>` modelled as an
association list. -/
def Routes : Type := List (String × Handler)

/-- The `StreamHandler::get_handler`: registry lookup by uri. -/
def get_handler (routes : Routes) (uri : String) : Option Handler :=
  routes.lookup uri

namespace StreamHandler

/-- The `StreamHandler::send_response` from `src/kafka/stream_handler.rs`: the
reply envelope it builds and publishes.  Note the literal `None` passed as
`source_id` and `None` as `response_destination`, with message type
`RESPONSE`.  The embedding returns the published `SendMessage`; broker
acknowledgement only affects logging and the returned error, not the
publish itself. -/
def send_response (message_id : String) (transaction_id : String)
    (topic : String) (uri : String) (data : Json) : SendMessage :=
  create_message none message_id transaction_id topic uri data
    (some .response) none

/-- The `StreamHandler::handle_not_found_response`: when the incoming envelope
wants a response (live destination), publish the serialized
`Error::UriNotFound(uri).to_response()` to that destination; otherwise
publish nothing.  The source unwraps `response_destination` after the
`should_response` check; the embedding matches on it directly. -/
def handle_not_found_response (m : ParsedMessage) : List SendMessage :=
  match m.response_destination with
  | some dest =>
    if dest.should_response then
      [send_response m.message_id m.transaction_id dest.topic dest.uri
        (Error.uriNotFound m.uri).to_response.toJson]
    else []
  | none => []

/-- The `StreamHandler::handle_response_ok`: on handler success with payload
`response`, publish `{ "data": response }` to a live destination. -/
def handle_response_ok (m : ParsedMessage) (response : Json) :
    List SendMessage :=
  match m.response_destination with
  | some dest =>
    if dest.should_response then
      [send_response m.message_id m.transaction_id dest.topic dest.uri
        (Json.obj [("data", response)])]
    else []
  | none => []

/-- The `StreamHandler::handle_response_error`: on handler failure, publish the
serialized `error.to_response()` to a live destination. -/
def handle_response_error (m : ParsedMessage) (error : Error) :
    List SendMessage :=
  match m.response_destination with
  | some dest =>
    if dest.should_response then
      [send_response m.message_id m.transaction_id dest.topic dest.uri
        error.to_response.toJson]
    else []
  | none => []

/-- The dispatch core of `StreamHandler::process_message`, after payload
extraction and parsing: look up the handler for the envelope's uri and
publish according to its outcome; on a miss, defer to
`handle_not_found_response`.  A handler returning `Acknowledge` publishes
nothing.  The returned list is every publish the call performs. -/
def process_message (routes : Routes) (m : ParsedMessage) :
    List SendMessage :=
  match get_handler routes m.uri with
  | some handler =>
    match handler m with
    | .error e => handle_response_error m e
    | .ok (.response response) => handle_response_ok m response
    | .ok .acknowledge => []
  | none => handle_not_found_response m

/-- The `StreamHandler::process_message` from the extracted payload onward: a
payload that fails to parse is dropped (the error is logged by the stream
loop) and nothing is published. -/
def process_payload (routes : Routes) (payload : Json) : List SendMessage :=
  match ParsedMessage.parse_from_string payload with
  | some m => process_message routes m
  | none => []

end StreamHandler

/-- A received broker message (`rdkafka::message::OwnedMessage`) as far as
the embedded code observes it: an optional timestamp (create-time or
log-append-time, collapsed because `get_latency` treats them identically)
and an optional payload (already modelled at the JSON level). -/
structure OwnedMessage where
  timestamp : Option Int
  payload : Option Json

/-- The `MessageLatency::get_latency` from `src/kafka/core/extensions.rs`:
`now - timestamp` in milliseconds, or `0` when no timestamp is available.
`now` (wall clock in milliseconds) is an explicit parameter. -/
def get_latency (now : Int) (msg : OwnedMessage) : Int :=
  match msg.timestamp with
  | some ts => now - ts
  | none => 0

/-- The `MessageLatency::is_expired` from `src/kafka/core/extensions.rs`:
`latency > 0 && latency > expire_time`.  Note that the raw `expire_time`
argument is compared directly against the millisecond latency. -/
def is_expired (now : Int) (msg : OwnedMessage) (expire_time : Int) : Bool :=
  let latency := get_latency now msg
  decide (latency > 0 ∧ latency > expire_time)

/-- The `pending_requests` table, `HashMap<String, PendingRequest>`,
modelled by its key set (the stored `PendingRequest` holds only the
one-shot completion sink and the `created_at` instant, used for resolving
and latency logging). -/
abbrev PendingTable : Type := List String

/-- The `HashMap::insert`: afterwards the key is present exactly once. -/
def pending_insert (p : PendingTable) (tid : String) : PendingTable :=
  tid :: p.filter (fun k => k != tid)

/-- The `HashMap::remove`: afterwards the key is absent. -/
def pending_remove (p : PendingTable) (tid : String) : PendingTable :=
  p.filter (fun k => k != tid)

namespace RequestSender

/-- The hard-coded reply-topic suffix literal in
`RequestSender::with_concurrency_limit`
(`src/kafka/request_sender.rs`). -/
def replyTopicSuffix : String := "9a2ece8f-0294-49cf-b2c9-9008417caea5"

/-- The fields of a constructed `RequestSender` observable by the claims:
the configured cluster id, the derived private reply topic, the default
timeout, and the topic list handed to the reply consumer. -/
structure State where
  cluster_id : String
  response_topic : String
  timeout_secs : Int
  consumer_topics : List String

/-- The `RequestSender::with_concurrency_limit`: derives
`response_topic = format!("{}.{}", cluster_id, <literal uuid>)` and
subscribes the reply consumer to exactly that topic.  The concurrency
limit only sizes the consumer and is recorded nowhere observable. -/
def with_concurrency_limit (cluster_id : String) (_concurrency_limit : Nat)
    (timeout_secs : Int) : State :=
  let response_topic := cluster_id ++ "." ++ replyTopicSuffix
  { cluster_id := cluster_id,
    response_topic := response_topic,
    timeout_secs := timeout_secs,
    consumer_topics := [response_topic] }

/-- The `KafkaProducer::send` from `src/kafka/core/kafka_producer.rs`, with the
broker outcome as an explicit parameter: `none` means the enqueue was
acknowledged, `some e` that the broker client failed with error text `e`,
which the producer wraps as
`InternalServerError("Failed to send message to Kafka: …")`.
(Serialization of the well-typed envelope cannot fail in the model.) -/
def producer_send (broker : Option String) : Except KafkaError Unit :=
  match broker with
  | none => .ok ()
  | some e => .error (.internalServerError
      ("Failed to send message to Kafka: " ++ e))

/-- The `RequestSender::send_request_base`: the REQUEST envelope built via
`create_message` (`src/kafka/utils.rs` variant), with
`source_id = cluster_id`, message type `REQUEST`, and
`responseDestination = { topic: response_topic, uri: "REQUEST_RESPONSE" }`,
paired with the producer outcome. -/
def send_request_base (s : State) (topic : String) (uri : String)
    (transaction_id : String) (message_id : String) (data : Json)
    (broker : Option String) : SendMessage × Except KafkaError Unit :=
  (utils_create_message s.cluster_id message_id transaction_id topic uri
     data (some .request)
     (some { topic := s.response_topic, uri := "REQUEST_RESPONSE" }),
   producer_send broker)

/-- Outcome of the `select!` race in `send_request_async` between the
oneshot receiver and the timeout timer, made explicit: the reply channel
yields a message, the channel is found closed (its sender was dropped, for
example overwritten by a later insert with the same transaction id), or
the timer fires first. -/
inductive RaceOutcome where
  | reply : ParsedMessage → RaceOutcome
  | channelClosed : String → RaceOutcome
  | timeout : RaceOutcome

/-- The `RequestSender::send_request_async` from
`src/kafka/request_sender.rs`, as a transition on the pending table.
In source order: insert the pending entry keyed by `transaction_id`;
publish via `send_request_base`, propagating its error with `?` (which
returns *before* the race, leaving the entry in the table); then race the
reply channel against the timer, each arm removing the entry before
returning — `Ok(reply)`, `InternalServerError("channel closed
unexpectedly: …")`, or `TimeoutError("request <id> timeout")`. -/
def send_request_async (pending : PendingTable) (transaction_id : String)
    (broker : Option String) (race : RaceOutcome) :
    PendingTable × Except KafkaError ParsedMessage :=
  let pending1 := pending_insert pending transaction_id
  match producer_send broker with
  | .error e => (pending1, .error e)
  | .ok _ =>
    match race with
    | .reply r =>
      (pending_remove pending1 transaction_id, .ok r)
    | .channelClosed e =>
      (pending_remove pending1 transaction_id,
       .error (.internalServerError ("channel closed unexpectedly: " ++ e)))
    | .timeout =>
      (pending_remove pending1 transaction_id,
       .error (.timeoutError ("request " ++ transaction_id ++ " timeout")))

/-- What `RequestSender::handle_message` did with a received reply. -/
inductive ReplyAction where
  | errNoPayload : ReplyAction
  | dropExpired : ReplyAction
  | errParseFailed : ReplyAction
  | resolved : ParsedMessage → ReplyAction
  | dropNotFound : String → ReplyAction

/-- The `RequestSender::handle_message` from `src/kafka/request_sender.rs`:
extract the payload (error if missing), drop the reply if
`is_expired(timeout_secs)` holds, parse it (error on failure), then remove
and resolve the pending entry for its `transactionId` — or drop the reply
with a warning when no entry exists. -/
def handle_message (now : Int) (msg : OwnedMessage) (pending : PendingTable)
    (timeout_secs : Int) : PendingTable × ReplyAction :=
  match msg.payload with
  | none => (pending, .errNoPayload)
  | some payload =>
    if is_expired now msg timeout_secs then
      (pending, .dropExpired)
    else
      match ParsedMessage.parse_from_string payload with
      | none => (pending, .errParseFailed)
      | some pm =>
        if pm.transaction_id ∈ pending then
          (pending_remove pending pm.transaction_id, .resolved pm)
        else
          (pending, .dropNotFound pm.transaction_id)

end RequestSender

/-! Concrete inputs used by witnesses and counterexamples. -/

/-- A live response destination (both fields non-empty). -/
def sampleDest : ResponseDestination where
  topic := "client.reply"
  uri := "REQUEST_RESPONSE"

/-- A REQUEST envelope with a live response destination. -/
def sampleRequest : ParsedMessage where
  message_type := .request
  source_id := some "caller"
  transaction_id := "tx-1"
  message_id := "mid-1"
  uri := "/echo"
  response_destination := some sampleDest
  data := Json.obj [("n", Json.num 42)]

/-- A handler that echoes the request payload. -/
def echoHandler : Handler := fun m => .ok (.response m.data)

/-- A handler that acknowledges without responding. -/
def ackHandler : Handler := fun _ => .ok .acknowledge

/-- The URI-miss reply `StreamHandler` publishes for `sampleRequest` when
no handler is registered. -/
def sampleNotFoundReply : SendMessage where
  topic := "client.reply"
  message := { message_type := .response, source_id := none,
               transaction_id := "tx-1", message_id := "mid-1",
               uri := "REQUEST_RESPONSE", response_destination := none,
               data := Json.obj
                 [("status", Json.obj
                    [("code", Json.str "URI_NOT_FOUND"),
                     ("message", Json.str "Uri not found: /echo"),
                     ("data", Json.null)]),
                  ("data", Json.null)] }

/-- The success reply published for `sampleRequest` under `echoHandler`. -/
def sampleEchoReply : SendMessage where
  topic := "client.reply"
  message := { message_type := .response, source_id := none,
               transaction_id := "tx-1", message_id := "mid-1",
               uri := "REQUEST_RESPONSE", response_destination := none,
               data := Json.obj [("data", Json.obj [("n", Json.num 42)])] }

/-- A RESPONSE envelope correlating to transaction `tx-1`. -/
def sampleReply : ParsedMessage where
  message_type := .response
  source_id := none
  transaction_id := "tx-1"
  message_id := "mid-1"
  uri := "REQUEST_RESPONSE"
  response_destination := none
  data := Json.null

/-- The `sampleReply` as received off the broker with a create-timestamp of
`1000` ms; observed at `now = 1700` ms its latency is 700 ms. -/
def sampleReplyMessage : OwnedMessage where
  timestamp := some 1000
  payload := some sampleReply.toJson

/-! Claim theorems. -/

/-- Claim C1, counterexample: when the producer send fails,
`send_request_async` returns an `InternalServerError` — neither a parsed
RESPONSE nor a `TimeoutError` — and the pending entry for the call's
transaction id is still in the table after the call returns, contradicting
the claim. -/
theorem send_request_async_claim_counterexample :
    (RequestSender.send_request_async [] "tx-1" (some "broker unreachable")
        .timeout).2 =
      .error (.internalServerError
        "Failed to send message to Kafka: broker unreachable") ∧
    "tx-1" ∈ (RequestSender.send_request_async [] "tx-1"
        (some "broker unreachable") .timeout).1 :=
  ⟨rfl, by simp [RequestSender.send_request_async,
    RequestSender.producer_send, pending_insert]⟩

/-- Claim C1 (amended): every `send_request_async` call returns exactly one
of a parsed reply envelope, a `TimeoutError`, or an `InternalServerError`
(producer send failure or closed reply channel); when the producer send
succeeds the pending table holds no entry for the call's transaction id
after the call returns, and when it fails the entry remains. -/
theorem send_request_async_outcome (pending : PendingTable) (tid : String)
    (broker : Option String) (race : RequestSender.RaceOutcome) :
    ((∃ r, (RequestSender.send_request_async pending tid broker race).2 =
        .ok r) ∨
     (∃ s, (RequestSender.send_request_async pending tid broker race).2 =
        .error (.timeoutError s)) ∨
     (∃ s, (RequestSender.send_request_async pending tid broker race).2 =
        .error (.internalServerError s))) ∧
    (broker = none →
      tid ∉ (RequestSender.send_request_async pending tid broker race).1) ∧
    (broker ≠ none →
      tid ∈ (RequestSender.send_request_async pending tid broker race).1) := by
  cases broker <;> cases race <;>
    simp [RequestSender.send_request_async, RequestSender.producer_send,
      pending_insert, pending_remove, List.mem_filter]

/-- Witness for C1's amended theorem at concrete inputs: a successful send
resolved by a reply leaves no pending entry for `tx-9`; a failed send
leaves the `tx-1` entry behind. -/
theorem send_request_async_outcome_witness :
    "tx-9" ∉ (RequestSender.send_request_async ["old-tx"] "tx-9" none
        (.reply sampleReply)).1 ∧
    "tx-1" ∈ (RequestSender.send_request_async [] "tx-1"
        (some "down") .timeout).1 :=
  ⟨(send_request_async_outcome ["old-tx"] "tx-9" none
      (.reply sampleReply)).2.1 rfl,
   (send_request_async_outcome [] "tx-1" (some "down") .timeout).2.2
     (by simp)⟩

/-- Claim C2: a received envelope whose destination has non-empty topic and
uri but whose uri has no registered handler causes exactly one RESPONSE to
be published to that destination, whose payload is
`{ status: { code: "URI_NOT_FOUND", message: <string>, data: null },
data: null }`. -/
theorem uri_miss_publishes_not_found (routes : Routes) (m : ParsedMessage)
    (dest : ResponseDestination)
    (hmiss : get_handler routes m.uri = none)
    (hdest : m.response_destination = some dest)
    (htopic : dest.topic ≠ "") (huri : dest.uri ≠ "") :
    StreamHandler.process_message routes m =
      [{ topic := dest.topic,
         message := { message_type := .response, source_id := none,
                      transaction_id := m.transaction_id,
                      message_id := m.message_id,
                      uri := dest.uri,
                      response_destination := none,
                      data := Json.obj
                        [("status", Json.obj
                           [("code", Json.str "URI_NOT_FOUND"),
                            ("message",
                             Json.str ("Uri not found: " ++ m.uri)),
                            ("data", Json.null)]),
                         ("data", Json.null)] } }] := by
  have hsr : dest.should_response = true := by
    simp [ResponseDestination.should_response, Bool.eq_false_iff,
      String.isEmpty_iff, htopic, huri]
  simp [StreamHandler.process_message, hmiss,
    StreamHandler.handle_not_found_response, hdest, hsr,
    StreamHandler.send_response, create_message, Error.to_response,
    Error.display, Response.toJson, Status.toJson, optJsonToJson]

/-- Witness for C2 at concrete inputs: an empty registry and
`sampleRequest` produce exactly the URI_NOT_FOUND reply. -/
theorem uri_miss_publishes_not_found_witness :
    StreamHandler.process_message [] sampleRequest = [sampleNotFoundReply] :=
  uri_miss_publishes_not_found [] sampleRequest sampleDest rfl rfl
    (by decide) (by decide)

/-- Claim C3: when the registered handler returns `Response(payload)` and
the destination is live, exactly one reply envelope is published to that
destination's topic and uri, with data exactly `{ "data": payload }`. -/
theorem handler_success_publishes_wrapped_payload (routes : Routes)
    (m : ParsedMessage) (dest : ResponseDestination) (f : Handler)
    (payload : Json)
    (hhit : get_handler routes m.uri = some f)
    (hres : f m = .ok (.response payload))
    (hdest : m.response_destination = some dest)
    (htopic : dest.topic ≠ "") (huri : dest.uri ≠ "") :
    StreamHandler.process_message routes m =
      [{ topic := dest.topic,
         message := { message_type := .response, source_id := none,
                      transaction_id := m.transaction_id,
                      message_id := m.message_id,
                      uri := dest.uri,
                      response_destination := none,
                      data := Json.obj [("data", payload)] } }] := by
  have hsr : dest.should_response = true := by
    simp [ResponseDestination.should_response, Bool.eq_false_iff,
      String.isEmpty_iff, htopic, huri]
  simp [StreamHandler.process_message, hhit, hres,
    StreamHandler.handle_response_ok, hdest, hsr,
    StreamHandler.send_response, create_message]

/-- Witness for C3 at concrete inputs: the echo handler on `sampleRequest`
produces exactly the wrapped-payload reply. -/
theorem handler_success_publishes_wrapped_payload_witness :
    StreamHandler.process_message [("/echo", echoHandler)] sampleRequest =
      [sampleEchoReply] :=
  handler_success_publishes_wrapped_payload [("/echo", echoHandler)]
    sampleRequest sampleDest echoHandler (Json.obj [("n", Json.num 42)])
    rfl rfl rfl (by decide) (by decide)

/-- Claim C4: every reply envelope built by `StreamHandler` — for handler
success, handler error, or URI miss — has message type RESPONSE, carries
the incoming envelope's `messageId` and `transactionId` unchanged, and has
`responseDestination = null`. -/
theorem replies_preserve_type_and_ids (routes : Routes) (m : ParsedMessage)
    (r : SendMessage) (hr : r ∈ StreamHandler.process_message routes m) :
    r.message.message_type = .response ∧
    r.message.message_id = m.message_id ∧
    r.message.transaction_id = m.transaction_id ∧
    r.message.response_destination = none := by
  unfold StreamHandler.process_message
    StreamHandler.handle_not_found_response StreamHandler.handle_response_ok
    StreamHandler.handle_response_error at hr
  repeat' split at hr
  all_goals simp_all [StreamHandler.send_response, create_message]

/-- Witness for C4 at concrete inputs: the URI-miss reply for
`sampleRequest`. -/
theorem replies_preserve_type_and_ids_witness :
    sampleNotFoundReply.message.message_type = .response ∧
    sampleNotFoundReply.message.message_id = sampleRequest.message_id ∧
    sampleNotFoundReply.message.transaction_id =
      sampleRequest.transaction_id ∧
    sampleNotFoundReply.message.response_destination = none :=
  replies_preserve_type_and_ids [] sampleRequest sampleNotFoundReply
    (show sampleNotFoundReply ∈ [sampleNotFoundReply] from
      List.mem_singleton.mpr rfl)

/-- Claim C5, counterexample: the reply `StreamHandler` publishes for a
request with a live destination carries `sourceId = none`, not the
configured cluster id (here `"my-cluster"`): `send_response` passes a
literal `None` as the source. -/
theorem reply_source_id_claim_counterexample :
    (StreamHandler.process_message [] sampleRequest).map
        (fun r => r.message.source_id) = [none] ∧
    (none : Option String) ≠ some "my-cluster" :=
  ⟨rfl, by simp⟩

/-- Claim C5 (amended): every reply envelope published by `StreamHandler`
has `sourceId = none`, whatever cluster id is configured. -/
theorem replies_have_no_source_id (routes : Routes) (m : ParsedMessage)
    (r : SendMessage) (hr : r ∈ StreamHandler.process_message routes m) :
    r.message.source_id = none := by
  unfold StreamHandler.process_message
    StreamHandler.handle_not_found_response StreamHandler.handle_response_ok
    StreamHandler.handle_response_error at hr
  repeat' split at hr
  all_goals simp_all [StreamHandler.send_response, create_message]

/-- Witness for C5's amended theorem at concrete inputs. -/
theorem replies_have_no_source_id_witness :
    sampleNotFoundReply.message.source_id = none :=
  replies_have_no_source_id [] sampleRequest sampleNotFoundReply
    (show sampleNotFoundReply ∈ [sampleNotFoundReply] from
      List.mem_singleton.mpr rfl)

/-- Claim C6, failing input: a reply with latency 700 ms against the
default timeout of 600 seconds.  `is_expired` compares the millisecond
latency directly with the raw `timeout_secs` value — no `·1000`
conversion — so it reports `true` (700 > 600) even though 0.7 s is far
below the 600 s timeout (700 > 600·1000 is false), and
`RequestSender::handle_message` therefore drops the fresh reply as
expired. -/
theorem is_expired_failing_input :
    is_expired 1700 sampleReplyMessage 600 = true ∧
    ¬((1700 - 1000 : Int) > 600 * 1000) ∧
    (RequestSender.handle_message 1700 sampleReplyMessage ["tx-1"] 600).2 =
      RequestSender.ReplyAction.dropExpired :=
  ⟨rfl, by norm_num, rfl⟩

/-- Claim C7: serializing any envelope to JSON and parsing it back with
`parse_from_string` yields the original envelope. -/
theorem parse_from_string_roundtrip (m : ParsedMessage) :
    ParsedMessage.parse_from_string m.toJson = some m := by
  rcases m with ⟨mt, sid, tid, mid, uri, rd, d⟩
  cases mt <;> cases sid <;> rcases rd with _ | ⟨dt, du⟩ <;> rfl

/-- Claim C8: a handler returning `Acknowledge` causes nothing to be
published, even when the envelope's destination is live. -/
theorem acknowledge_publishes_nothing (routes : Routes) (m : ParsedMessage)
    (f : Handler) (hhit : get_handler routes m.uri = some f)
    (hack : f m = .ok .acknowledge) :
    StreamHandler.process_message routes m = [] := by
  simp [StreamHandler.process_message, hhit, hack]

/-- Witness for C8 at concrete inputs: the acknowledge handler on
`sampleRequest`, whose destination is live, publishes nothing. -/
theorem acknowledge_publishes_nothing_witness :
    StreamHandler.process_message [("/echo", ackHandler)] sampleRequest =
      [] :=
  acknowledge_publishes_nothing [("/echo", ackHandler)] sampleRequest
    ackHandler rfl rfl

/-- Claim C9, failing input: two `RequestSender` processes configured with
the same cluster id `"svc"` (and different concurrency limits and
timeouts, standing in for distinct processes) derive the same reply topic,
because the suffix is the hard-coded literal
`9a2ece8f-0294-49cf-b2c9-9008417caea5` rather than a per-process unique
value. -/
theorem response_topic_shared_failing_input :
    (RequestSender.with_concurrency_limit "svc" 100 600).response_topic =
      (RequestSender.with_concurrency_limit "svc" 50 30).response_topic ∧
    (RequestSender.with_concurrency_limit "svc" 100 600).response_topic =
      "svc.9a2ece8f-0294-49cf-b2c9-9008417caea5" :=
  ⟨rfl, rfl⟩

/-- Claim C10: `parse_from_string` returns `none` — and the message is
dropped — for every JSON object missing any of `messageType`,
`transactionId`, `messageId`, `uri`, or `data` (in particular a missing
`messageId` is rejected), while `sourceId` and `responseDestination` may
be absent from the wire. -/
theorem parse_from_string_required_fields :
    (∀ kvs : List (String × Json),
      (kvs.lookup "messageType" = none ∨ kvs.lookup "transactionId" = none ∨
       kvs.lookup "messageId" = none ∨ kvs.lookup "uri" = none ∨
       kvs.lookup "data" = none) →
      ParsedMessage.parse_from_string (.obj kvs) = none ∧
      ∀ routes : Routes, StreamHandler.process_payload routes (.obj kvs) = []) ∧
    (∀ (mt : MessageType) (tid mid uri : String) (d : Json),
      ParsedMessage.parse_from_string
        (.obj [("messageType", mt.toJson), ("transactionId", .str tid),
               ("messageId", .str mid), ("uri", .str uri), ("data", d)]) =
      some { message_type := mt, source_id := none, transaction_id := tid,
             message_id := mid, uri := uri, response_destination := none,
             data := d }) := by
  constructor
  · intro kvs h
    have hparse : ParsedMessage.parse_from_string (.obj kvs) = none := by
      simp only [ParsedMessage.parse_from_string]
      by_cases hdup : ∀ k ∈ parsedMessageKeys, jsonKeyCount kvs k ≤ 1
      · rw [if_pos hdup]
        cases h1 : (kvs.lookup "messageType").bind decodeMessageType <;>
        cases h2 : decodeOptString (kvs.lookup "sourceId") <;>
        cases h3 : (kvs.lookup "transactionId").bind Json.asString <;>
        cases h4 : (kvs.lookup "messageId").bind Json.asString <;>
        cases h5 : (kvs.lookup "uri").bind Json.asString <;>
        cases h6 : decodeOptDest (kvs.lookup "responseDestination") <;>
        cases h7 : kvs.lookup "data" <;>
          first
          | rfl
          | (rcases h with h | h | h | h | h <;> simp [h] at h1 h3 h4 h5 h7)
      · rw [if_neg hdup]
    exact ⟨hparse, fun routes => by
      simp [StreamHandler.process_payload, hparse]⟩
  · intro mt tid mid uri d
    cases mt <;> rfl

/-- Witness for C10 at concrete inputs: an object lacking `messageId` is
rejected and dropped, while one with all five required fields but neither
`sourceId` nor `responseDestination` parses. -/
theorem parse_from_string_required_fields_witness :
    ParsedMessage.parse_from_string
      (.obj [("messageType", Json.str "REQUEST"),
             ("transactionId", Json.str "tx-1"),
             ("uri", Json.str "/echo"), ("data", Json.null)]) = none ∧
    StreamHandler.process_payload []
      (.obj [("messageType", Json.str "REQUEST"),
             ("transactionId", Json.str "tx-1"),
             ("uri", Json.str "/echo"), ("data", Json.null)]) = [] ∧
    ParsedMessage.parse_from_string
      (.obj [("messageType", Json.str "MESSAGE"),
             ("transactionId", Json.str "t"), ("messageId", Json.str ""),
             ("uri", Json.str "/u"), ("data", Json.null)]) =
      some { message_type := .message, source_id := none,
             transaction_id := "t", message_id := "", uri := "/u",
             response_destination := none, data := Json.null } := by
  have hA := parse_from_string_required_fields.1
    [("messageType", Json.str "REQUEST"), ("transactionId", Json.str "tx-1"),
     ("uri", Json.str "/echo"), ("data", Json.null)]
    (Or.inr (Or.inr (Or.inl rfl)))
  exact ⟨hA.1, hA.2 [],
    parse_from_string_required_fields.2 .message "t" "" "/u" Json.null⟩

end RustCommon
